import Mathlib

/-!
Shallow embedding of the CCXT broker adapter (src/ccxtbt/ccxtbroker.py).

Python floats are modelled as rationals, Python dicts as association
lists, and the mutable broker object as an explicit state record that
every operation threads.  Exchange connectivity (the store) is modelled
as an explicit state carrying the responses the exchange would give to
this call, together with a log of the calls issued, so that frame
properties about which exchange requests an operation performs are
statable.
-/

namespace CcxtBt

/-- Association-list lookup, modelling a Python dict read that returns
the value when the key is present. -/
def afind {κ α : Type} [DecidableEq κ] (k : κ) : List (κ × α) → Option α
  | [] => none
  | (k2, v) :: rest => if k = k2 then some v else afind k rest

/-- Association-list key removal, modelling a Python dict key deletion. -/
def aerase {κ α : Type} [DecidableEq κ] (k : κ) (l : List (κ × α)) : List (κ × α) :=
  l.filter (fun kv => kv.1 ≠ k)

/-- Association-list insertion (replace the key when present), modelling a
Python dict assignment. -/
def ainsert {κ α : Type} [DecidableEq κ] (k : κ) (v : α) (l : List (κ × α)) :
    List (κ × α) :=
  (k, v) :: aerase k l

theorem afind_ainsert_self {κ α : Type} [DecidableEq κ] (k : κ) (v : α)
    (l : List (κ × α)) : afind k (ainsert k v l) = some v := by
  simp [ainsert, afind]

theorem afind_aerase {κ α : Type} [DecidableEq κ] (k k2 : κ) (l : List (κ × α)) :
    afind k (aerase k2 l) = if k = k2 then none else afind k l := by
  induction l with
  | nil => simp [aerase, afind]
  | cons kv rest ih =>
    by_cases h1 : kv.1 = k2
    · by_cases h2 : k = k2 <;> simp [aerase, afind, h1, h2] at ih ⊢ <;>
        simpa [aerase, h1] using ih
    · by_cases h2 : k = kv.1 <;>
        simp [aerase, afind, h1, h2] at ih ⊢ <;> simpa [aerase] using ih

/-- A scalar value stored in a raw exchange-order dict (mapping-table
comparisons are made against such values). -/
inductive FieldVal where
  | str : String → FieldVal
  | num : ℚ → FieldVal
deriving DecidableEq, Repr

/-- A value stored in the params/kwargs dicts passed to submission; may
nest a dict (the code unwraps a nested dict stored under the key
"params"). -/
inductive ParamVal where
  | str : String → ParamVal
  | num : ℚ → ParamVal
  | dict : List (String × ParamVal) → ParamVal

/-- One entry of a status-predicate mapping: `{key: ..., value: ...}`. -/
structure KeyVal where
  key : String
  value : FieldVal
deriving DecidableEq, Repr

/-- The mappings table of the broker (closed-order and canceled-order
predicates). -/
structure Mappings where
  closed_order : KeyVal
  canceled_order : KeyVal
deriving DecidableEq, Repr

/-- An entry of the trade list returned by `fetch_my_trades`; the broker
only inspects the `order` field (the owning order id). -/
structure Trade where
  order : String
deriving DecidableEq, Repr

/-- A raw CCXT order dict as returned by the exchange.  The fields the
broker reads by fixed name are typed; `extra` carries any further keys so
that the dynamic key lookup of the mapping table is modelled. -/
structure CcxtOrder where
  id : String
  price : ℚ
  amount : ℚ
  side : String
  datetime : String
  status : String
  trades : List Trade := []
  extra : List (String × FieldVal) := []
deriving DecidableEq, Repr

/-- Errors the Python code can raise: `KeyError` from dict access and
errors propagated from the exchange connectivity layer. -/
inductive BrokerErr where
  | keyError : String → BrokerErr
  | exchangeError : BrokerErr
deriving DecidableEq, Repr

instance {ε α : Type} [DecidableEq ε] [DecidableEq α] :
    DecidableEq (Except ε α) := fun a b =>
  match a, b with
  | Except.ok x, Except.ok y => decidable_of_iff (x = y) (by simp)
  | Except.ok _, Except.error _ => Decidable.isFalse (fun h => Except.noConfusion h)
  | Except.error _, Except.ok _ => Decidable.isFalse (fun h => Except.noConfusion h)
  | Except.error e, Except.error f => decidable_of_iff (e = f) (by simp)

/-- Python `ccxt_order[key]`: typed fields answer their own names, any
other key is looked up in `extra`, a missing key raises `KeyError`. -/
def CcxtOrder.getItem (o : CcxtOrder) (k : String) : Except BrokerErr FieldVal :=
  if k = "id" then .ok (.str o.id)
  else if k = "price" then .ok (.num o.price)
  else if k = "amount" then .ok (.num o.amount)
  else if k = "side" then .ok (.str o.side)
  else if k = "datetime" then .ok (.str o.datetime)
  else if k = "status" then .ok (.str o.status)
  else match afind k o.extra with
    | some v => .ok v
    | none => .error (.keyError k)

/-- A per-instrument position: net size and average entry price. -/
structure Position where
  size : ℚ
  price : ℚ
deriving DecidableEq, Repr

/-- Modelled from the spec: the update-on-fill function of the Position Ledger
(spec section 3 Position and section 8 open/close split exactness).  The
ledger implementation lives in the backtrader dependency, not under
src/; this definition follows the specified semantics: returns the new
position together with (resulting size, resulting average price, opened
quantity, closed quantity). -/
def Position.update (p : Position) (size price : ℚ) :
    Position × ℚ × ℚ × ℚ × ℚ :=
  let oldsize := p.size
  let newsize := oldsize + size
  if newsize = 0 then
    -- the fill exactly closes the existing position
    ({ size := 0, price := 0 }, 0, 0, 0, size)
  else if oldsize = 0 then
    -- the fill opens a position from scratch
    ({ size := newsize, price := price }, newsize, price, size, 0)
  else if oldsize > 0 then
    if size > 0 then
      -- long position increased
      let np := (p.price * oldsize + size * price) / newsize
      ({ size := newsize, price := np }, newsize, np, size, 0)
    else if newsize > 0 then
      -- long position reduced, still long
      ({ size := newsize, price := p.price }, newsize, p.price, 0, size)
    else
      -- long position reversed to short
      ({ size := newsize, price := price }, newsize, price, newsize, -oldsize)
  else
    if size < 0 then
      -- short position increased
      let np := (p.price * oldsize + size * price) / newsize
      ({ size := newsize, price := np }, newsize, np, size, 0)
    else if newsize < 0 then
      -- short position reduced, still short
      ({ size := newsize, price := p.price }, newsize, p.price, 0, size)
    else
      -- short position reversed to long
      ({ size := newsize, price := price }, newsize, price, newsize, -oldsize)

/-- Commission scheme handle returned by `getcommissioninfo`; the broker
only reads its `margin` attribute (Python `None` becomes `none`). -/
structure CommInfo where
  margin : Option ℚ := none
deriving DecidableEq, Repr

/-- backtrader order side (`CCXTOrder.ordtype`). -/
inductive OrdType where
  | Buy
  | Sell
deriving DecidableEq, Repr

/-- Local order status as driven by this broker: created at submission,
then marked partially filled / completed by the fill engine or canceled
by the cancellation pipeline. -/
inductive OrderStatus where
  | Created
  | PartFilled
  | Completed
  | Canceled
deriving DecidableEq, Repr

/-- The argument tuple recorded by one `order.execute(...)` call (the
per-fill audit record). -/
structure ExecRecord where
  dt : String
  size : ℚ
  price : ℚ
  closed : ℚ
  closedvalue : ℚ
  closedcomm : ℚ
  opened : ℚ
  openedvalue : ℚ
  openedcomm : ℚ
  margin : ℚ
  pnl : ℚ
  psize : ℚ
  pprice : ℚ
deriving DecidableEq, Repr

/-- Instrument/feed handle: the broker reads `data.p.dataname` and the
current feed time (`data.datetime.datetime(0)`, as milliseconds). -/
structure DataFeed where
  dataname : String
  now_ms : Int
deriving DecidableEq, Repr

/-- The local order record (`CCXTOrder` in the source): wraps the raw
exchange order and carries the backtrader-level mutable fields the
broker touches (price, status, recorded executions, commission info). -/
structure CCXTOrder where
  owner : String
  data : DataFeed
  ccxt_order : CcxtOrder
  ordtype : OrdType
  size : ℚ
  price : ℚ
  status : OrderStatus
  executions : List ExecRecord := []
  comminfo : Option CommInfo := none
deriving DecidableEq, Repr

/-- One exchange request issued through the store, for frame reasoning
about which calls an operation performs. -/
inductive ExchCall where
  | createOrder : String → Option String → String → ℚ → Option ℚ → ExchCall
  | fetchOrder : String → String → ExchCall
  | cancelOrder : String → String → ExchCall
  | fetchMyTrades : String → ExchCall
  | fetchBalance : ExchCall
deriving DecidableEq, Repr

/-- Modelled from the spec: the exchange-connectivity store
(ccxtbt/ccxtstore.py, which is not under src/), specified at its
interface boundary (spec sections 4.4 and 6).  `_cash`/`_value` are the
cached balance of the store, refreshed from exchange ground truth
(`exch_cash`/`exch_value`) by `get_balance`.  `orders` is the authoritative exchange order state served by `fetch_order`; `createResp` and
`cancelResp` are the raw responses the exchange gives to the create/cancel request of this call; `myTrades` is the trade history served by
`fetch_my_trades`; `log` records every exchange request issued. -/
structure Store where
  _cash : ℚ
  _value : ℚ
  exch_cash : ℚ
  exch_value : ℚ
  orders : List (String × CcxtOrder) := []
  createResp : CcxtOrder
  cancelResp : CcxtOrder
  myTrades : List Trade := []
  log : List ExchCall := []
deriving DecidableEq, Repr

/-- Modelled from the spec: `store.get_balance()` performs a fresh
balance query and updates the cached cash/value (spec section 4.4). -/
def Store.get_balance (st : Store) : Store :=
  { st with _cash := st.exch_cash, _value := st.exch_value,
            log := st.log ++ [ExchCall.fetchBalance] }

/-- Modelled from the spec: `store.fetch_order(id, symbol)` returns the
authoritative exchange order state for that id; connectivity errors
propagate (spec section 6). -/
def Store.fetch_order (st : Store) (oid sym : String) :
    Except BrokerErr CcxtOrder × Store :=
  let st2 := { st with log := st.log ++ [ExchCall.fetchOrder oid sym] }
  match afind oid st.orders with
  | some o => (.ok o, st2)
  | none => (.error .exchangeError, st2)

/-- Modelled from the spec: `store.cancel_order(id, symbol)` issues the
cancel request and returns the raw exchange response (spec section 6). -/
def Store.cancel_order (st : Store) (oid sym : String) : CcxtOrder × Store :=
  (st.cancelResp, { st with log := st.log ++ [ExchCall.cancelOrder oid sym] })

/-- Modelled from the spec: `store.create_order(...)` submits the order
and returns the raw exchange create response (spec section 6). -/
def Store.create_order (st : Store) (symbol : String) (order_type : Option String)
    (side : String) (amount : ℚ) (price : Option ℚ)
    (_params : List (String × ParamVal)) : CcxtOrder × Store :=
  (st.createResp,
   { st with log := st.log ++ [ExchCall.createOrder symbol order_type side amount price] })

/-- Modelled from the spec: `store.fetch_my_trades(symbol)` returns the
account trade history for the instrument (spec section 6). -/
def Store.fetch_my_trades (st : Store) (sym : String) : List Trade × Store :=
  (st.myTrades, { st with log := st.log ++ [ExchCall.fetchMyTrades sym] })

/-- The mutable broker state (`CCXTBroker.__init__`): order-type and
status-predicate mapping tables, per-instrument positions (a defaultdict),
the open-order table keyed by exchange order id, the cached cash/value,
the notification queue, and the per-instrument commission schemes. -/
structure CCXTBroker where
  order_types : List (ℕ × String)
  mappings : Mappings
  positions : List (String × Position) := []
  open_orders : List (String × CCXTOrder) := []
  cash : ℚ
  value : ℚ
  startingcash : ℚ
  startingvalue : ℚ
  notifs : List (Option CCXTOrder) := []
  comminfo : List (String × CommInfo) := []
deriving DecidableEq, Repr

/-- `CCXTBroker.get_balance`: query the store and copy its refreshed
cached cash/value into the broker. -/
def CCXTBroker.get_balance (b : CCXTBroker) (st : Store) : CCXTBroker × Store :=
  let st2 := st.get_balance
  ({ b with cash := st2._cash, value := st2._value }, st2)

/-- The balance-touching part of `CCXTBroker.__init__`: one balance query,
then record starting cash/value from the cache of the store. -/
def CCXTBroker.init (order_types : List (ℕ × String)) (mappings : Mappings)
    (comminfo : List (String × CommInfo)) (st : Store) : CCXTBroker × Store :=
  let st2 := st.get_balance
  ({ order_types := order_types, mappings := mappings,
     positions := [], open_orders := [], notifs := [], comminfo := comminfo,
     cash := st2._cash, value := st2._value,
     startingcash := st2._cash, startingvalue := st2._value }, st2)

/-- `CCXTBroker.stop`: one final balance query at shutdown. -/
def CCXTBroker.stop (b : CCXTBroker) (st : Store) : CCXTBroker × Store :=
  CCXTBroker.get_balance b st

/-- `CCXTBroker.getcash`: serve the cached store cash without issuing
any exchange query (the live query in the source is commented out). -/
def CCXTBroker.getcash (b : CCXTBroker) (st : Store) : ℚ × CCXTBroker × Store :=
  (st._cash, { b with cash := st._cash }, st)

/-- `CCXTBroker.getvalue`: serve the cached store value without issuing
any exchange query. -/
def CCXTBroker.getvalue (b : CCXTBroker) (st : Store) : ℚ × CCXTBroker × Store :=
  (st._value, { b with value := st._value }, st)

/-- `CCXTBroker.notify`: enqueue `order.clone()` — a snapshot of the
order state at enqueue time (the backtrader `clone` is modelled at its
interface boundary as a copy detached from the live object). -/
def CCXTBroker.notify (b : CCXTBroker) (order : CCXTOrder) : CCXTBroker :=
  { b with notifs := b.notifs ++ [some order] }

/-- `CCXTBroker.get_notification`: non-blocking poll of the notification
queue; `none` when empty, otherwise the front entry (which may itself be
the `None` iteration sentinel deposited by `next`). -/
def CCXTBroker.get_notification (b : CCXTBroker) :
    Option (Option CCXTOrder) × CCXTBroker :=
  match b.notifs with
  | [] => (none, b)
  | n :: rest => (some n, { b with notifs := rest })

/-- `CCXTBroker.next`: deposit the `None` iteration sentinel. -/
def CCXTBroker.next (b : CCXTBroker) : CCXTBroker :=
  { b with notifs := b.notifs ++ [none] }

/-- `CCXTBroker.getposition` (with `clone=False`): defaultdict read of the
live position of the instrument, a zero position when absent. -/
def CCXTBroker.getposition (b : CCXTBroker) (dataname : String) : Position :=
  (afind dataname b.positions).getD { size := 0, price := 0 }

/-- `CCXTBroker.get_order_trades`: the account trade history filtered to
the entries belonging to the given order id. -/
def CCXTBroker.get_order_trades (_b : CCXTBroker) (st : Store) (order_id sym : String) :
    List Trade × Store :=
  let pr := st.fetch_my_trades sym
  (pr.1.filter (fun d => d.order = order_id), pr.2)

/-- The closed/opened value and commission computation of
`push_trade_message` (source lines 449-465): value is price times the
closed/opened quantity when that quantity is nonzero (Python float
truthiness), commission is the `n` field of the message when present, else 0;
a zero quantity contributes zero value and zero commission. -/
structure FillVals where
  closedvalue : ℚ
  closedcomm : ℚ
  openedvalue : ℚ
  openedcomm : ℚ
deriving DecidableEq, Repr

def fillValues (closed opened l_price : ℚ) (n : Option ℚ) : FillVals :=
  { closedvalue := if closed ≠ 0 then l_price * closed else 0
    closedcomm := if closed ≠ 0 then n.getD 0 else 0
    openedvalue := if opened ≠ 0 then l_price * opened else 0
    openedcomm := if opened ≠ 0 then n.getD 0 else 0 }

/-- A raw execution-report message: the source reads the inner dict under key o of msg and then
the Binance-style single-letter fields of that inner dict. -/
structure ExecMsg where
  /-- order status, e.g. FILLED, PARTIALLY_FILLED or NEW -/
  X : String
  /-- execution type, e.g. TRADE or NEW -/
  x : String
  /-- order id (the source applies `str` to it) -/
  i : String
  /-- side, BUY or SELL -/
  S : String
  /-- quantity filled by this event -/
  l : ℚ
  /-- fill price of this event -/
  L : ℚ
  /-- commission, absent when the exchange omits it -/
  n : Option ℚ
  /-- realized profit reported by the exchange -/
  rp : ℚ
deriving DecidableEq, Repr

structure Msg where
  o : ExecMsg
deriving DecidableEq, Repr

/-- `CCXTBroker.push_trade_message` (source lines 355-516): apply one
execution report.  Unknown order ids, non-trade execution types and
non-fill statuses are discarded; otherwise the position is updated with
the signed fill, order status transitions, the trade list is re-fetched
and attached, the execution is recorded on the order, a notification is
enqueued and the balance is refreshed. -/
def CCXTBroker.push_trade_message (b : CCXTBroker) (st : Store) (msg : Msg) :
    CCXTBroker × Store :=
  let pushed_order := msg.o
  let status := pushed_order.X
  let exec_type := pushed_order.x
  let order_id := pushed_order.i
  match afind order_id b.open_orders with
  | none => (b, st)
  | some order =>
    if exec_type ≠ "TRADE" then (b, st)
    else if status ≠ "FILLED" ∧ status ≠ "PARTIALLY_FILLED" then (b, st)
    else
      let data := order.data
      let pos := b.getposition data.dataname
      let side := pushed_order.S
      let size := if side = "BUY" then pushed_order.l else -pushed_order.l
      let price := pushed_order.L
      let r := pos.update size price
      let psize := r.2.1
      let pprice := r.2.2.1
      let opened := r.2.2.2.1
      let closed := r.2.2.2.2
      -- pos.update mutates the (defaultdict-created) ledger entry in place
      let b := { b with positions := ainsert data.dataname r.1 b.positions }
      let comminfo := (afind data.dataname b.comminfo).getD { margin := none }
      let fv := fillValues closed opened pushed_order.L pushed_order.n
      -- order.partial() / order.completed()
      let order :=
        if status = "PARTIALLY_FILLED" then { order with status := OrderStatus.PartFilled }
        else if status = "FILLED" then { order with status := OrderStatus.Completed }
        else order
      let tr := b.get_order_trades st order_id order.data.dataname
      let st := tr.2
      let order := { order with ccxt_order := { order.ccxt_order with trades := tr.1 } }
      let margin : ℚ :=
        match comminfo.margin with
        | none => 0
        | some m => if m ≠ 0 then m else 0
      let execsize := closed + opened
      let pnl := pushed_order.rp
      -- order.execute(...) records the per-fill audit entry;
      -- order.addcomminfo(comminfo) attaches the commission scheme
      let order := { order with
        executions := order.executions ++
          [{ dt := order.ccxt_order.datetime, size := execsize, price := price,
             closed := closed, closedvalue := fv.closedvalue, closedcomm := fv.closedcomm,
             opened := opened, openedvalue := fv.openedvalue, openedcomm := fv.openedcomm,
             margin := margin, pnl := pnl, psize := psize, pprice := pprice }],
        comminfo := some comminfo }
      -- the live object in the open-order table is the mutated order
      let b := { b with open_orders := ainsert order_id order b.open_orders }
      let b := b.notify order
      CCXTBroker.get_balance b st

/-- `CCXTBroker._submit` (source lines 254-272): resolve the order type,
stamp the creation time into the params, create the order on the
exchange, re-fetch it by the returned id, build the local order around
the re-fetched dict, overwrite its price with the create-response price,
register it in the open-order table and enqueue a notification. -/
def CCXTBroker._submit (b : CCXTBroker) (st : Store) (owner : String)
    (data : DataFeed) (exectype : Option ℕ) (side : String) (amount : ℚ)
    (price : Option ℚ) (params : List (String × ParamVal)) :
    Except BrokerErr CCXTOrder × CCXTBroker × Store :=
  -- order_types.get(exectype) if exectype else market; Order.Market is 0,
  -- hence falsy in Python
  let order_type : Option String :=
    match exectype with
    | none => some "market"
    | some k => if k = 0 then some "market" else afind k b.order_types
  let created : Int := data.now_ms
  -- unwrap a nested dict stored under the params key, when present
  let params :=
    match afind "params" params with
    | some (ParamVal.dict d) => d
    | some _ => params  -- a non-dict value here would fault in Python
    | none => params
  let params := ainsert "created" (ParamVal.num (created : ℚ)) params
  let co := st.create_order data.dataname order_type side amount price params
  let ret_ord := co.1
  let st := co.2
  let fo := st.fetch_order ret_ord.id data.dataname
  match fo.1 with
  | .error e => (.error e, b, fo.2)
  | .ok fetched =>
    let st := fo.2
    -- CCXTOrder(owner, data, _order) wraps the re-fetched dict ...
    let order : CCXTOrder :=
      { owner := owner, data := data, ccxt_order := fetched,
        ordtype := if fetched.side = "buy" then OrdType.Buy else OrdType.Sell,
        size := fetched.amount,
        -- ... but order.price is then assigned from the create response
        price := ret_ord.price,
        status := OrderStatus.Created }
    let b := { b with open_orders := ainsert order.ccxt_order.id order b.open_orders }
    let b := b.notify order
    (.ok order, b, st)

/-- Python `del kwargs[k]`: removes the key, raising `KeyError` when the
key is absent. -/
def delKey (l : List (String × ParamVal)) (k : String) :
    Except BrokerErr (List (String × ParamVal)) :=
  match afind k l with
  | none => .error (BrokerErr.keyError k)
  | some _ => .ok (aerase k l)

/-- `CCXTBroker.buy` (source lines 274-281): unconditionally delete the
`parent` and `transmit` keyword arguments, then submit a buy order. -/
def CCXTBroker.buy (b : CCXTBroker) (st : Store) (owner : String)
    (data : DataFeed) (size : ℚ) (price : Option ℚ) (exectype : Option ℕ)
    (kwargs : List (String × ParamVal)) :
    Except BrokerErr CCXTOrder × CCXTBroker × Store :=
  match delKey kwargs "parent" with
  | .error e => (.error e, b, st)
  | .ok kw1 =>
    match delKey kw1 "transmit" with
    | .error e => (.error e, b, st)
    | .ok kw2 => CCXTBroker._submit b st owner data exectype "buy" size price kw2

/-- `CCXTBroker.sell` (source lines 283-290): unconditionally delete the
`parent` and `transmit` keyword arguments, then submit a sell order. -/
def CCXTBroker.sell (b : CCXTBroker) (st : Store) (owner : String)
    (data : DataFeed) (size : ℚ) (price : Option ℚ) (exectype : Option ℕ)
    (kwargs : List (String × ParamVal)) :
    Except BrokerErr CCXTOrder × CCXTBroker × Store :=
  match delKey kwargs "parent" with
  | .error e => (.error e, b, st)
  | .ok kw1 =>
    match delKey kw1 "transmit" with
    | .error e => (.error e, b, st)
    | .ok kw2 => CCXTBroker._submit b st owner data exectype "sell" size price kw2

/-- `CCXTBroker.cancel` (source lines 292-323): re-fetch the order; when
the fetched state satisfies the configured closed predicate return the
order unchanged without issuing a cancel request.  Otherwise issue the
cancel request; when its response satisfies the configured canceled
predicate, pop the order from the open-order table (a `KeyError` when
absent, as `dict.pop`), mark the order canceled and enqueue a
notification; otherwise leave everything untouched. -/
def CCXTBroker.cancel (b : CCXTBroker) (st : Store) (order : CCXTOrder) :
    Except BrokerErr CCXTOrder × CCXTBroker × Store :=
  let oID := order.ccxt_order.id
  let fr := st.fetch_order oID order.data.dataname
  match fr.1 with
  | .error e => (.error e, b, fr.2)
  | .ok ccxt_order =>
    let st := fr.2
    match ccxt_order.getItem b.mappings.closed_order.key with
    | .error e => (.error e, b, st)
    | .ok v =>
      if v = b.mappings.closed_order.value then
        (.ok order, b, st)
      else
        let cr := st.cancel_order oID order.data.dataname
        let st := cr.2
        match cr.1.getItem b.mappings.canceled_order.key with
        | .error e => (.error e, b, st)
        | .ok w =>
          if w = b.mappings.canceled_order.value then
            match afind oID b.open_orders with
            | none => (.error (BrokerErr.keyError oID), b, st)
            | some _ =>
              let order := { order with status := OrderStatus.Canceled }
              let b := { b with open_orders := aerase oID b.open_orders }
              let b := b.notify order
              (.ok order, b, st)
          else
            (.ok order, b, st)

/-- Number of balance queries in an exchange-call log. -/
def countBalance : List ExchCall → ℕ
  | [] => 0
  | ExchCall.fetchBalance :: rest => countBalance rest + 1
  | _ :: rest => countBalance rest

theorem countBalance_append (l1 l2 : List ExchCall) :
    countBalance (l1 ++ l2) = countBalance l1 + countBalance l2 := by
  induction l1 with
  | nil => simp [countBalance]
  | cons c rest ih =>
    cases c <;> simp [countBalance, ih] <;> omega

/-! ### Concrete fixtures used by witnesses and counterexamples -/

def exMappings : Mappings :=
  { closed_order := { key := "status", value := FieldVal.str "closed" }
    canceled_order := { key := "status", value := FieldVal.str "canceled" } }

def exData : DataFeed := { dataname := "BTC/USDT", now_ms := 1625132022659 }

def exCcxt1 : CcxtOrder :=
  { id := "o1", price := 100, amount := 2, side := "buy",
    datetime := "2021-07-01T09:33:42.659Z", status := "open" }

def exOrder1 : CCXTOrder :=
  { owner := "strategy", data := exData, ccxt_order := exCcxt1,
    ordtype := OrdType.Buy, size := 2, price := 100,
    status := OrderStatus.Created }

def exStore : Store :=
  { _cash := 1000, _value := 1000, exch_cash := 990, exch_value := 995,
    orders := [("o1", exCcxt1)],
    createResp := exCcxt1, cancelResp := exCcxt1,
    myTrades := [{ order := "o1" }, { order := "zz" }] }

def exBroker : CCXTBroker :=
  { order_types := [(2, "limit"), (3, "stop"), (4, "stop limit")],
    mappings := exMappings,
    open_orders := [("o1", exOrder1)],
    cash := 1000, value := 1000, startingcash := 1000, startingvalue := 1000 }

def exBrokerEmpty : CCXTBroker :=
  { order_types := [(2, "limit")], mappings := exMappings,
    cash := 1000, value := 1000, startingcash := 1000, startingvalue := 1000 }

/-- A FILLED trade execution report for order o1: buy 2 at price 101,
commission 1, realized pnl 0. -/
def exMsgFilled : Msg :=
  { o := { X := "FILLED", x := "TRADE", i := "o1", S := "BUY",
           l := 2, L := 101, n := some 1, rp := 0 } }

/-- An execution report whose order id o9 is unknown to the table. -/
def exMsgUnknown : Msg :=
  { o := { X := "FILLED", x := "TRADE", i := "o9", S := "BUY",
           l := 2, L := 101, n := some 1, rp := 0 } }

/-- A bare acknowledgment report (execution type NEW) for known order o1. -/
def exMsgAck : Msg :=
  { o := { X := "NEW", x := "NEW", i := "o1", S := "BUY",
           l := 0, L := 0, n := none, rp := 0 } }

/-! ### Claim theorems -/

/-- C1: an execution-report message whose order id is not a key of the
open-order table leaves the whole broker state (position ledger,
open-order table, cached cash/value, notification queue) and the store
(no exchange call, no balance refresh) unchanged. -/
theorem push_trade_message_unknown_id_frame (b : CCXTBroker) (st : Store)
    (msg : Msg) (h : afind msg.o.i b.open_orders = none) :
    b.push_trade_message st msg = (b, st) := by
  simp [CCXTBroker.push_trade_message, h]

theorem push_trade_message_unknown_id_frame_witness :
    afind exMsgUnknown.o.i exBroker.open_orders = none ∧
    exBroker.push_trade_message exStore exMsgUnknown = (exBroker, exStore) :=
  ⟨by decide, push_trade_message_unknown_id_frame exBroker exStore exMsgUnknown (by decide)⟩

/-- C7: an execution report for a known order whose execution type is not
TRADE, or whose status is neither FILLED nor PARTIALLY_FILLED, leaves the
whole broker state (in particular the position ledger, the order status
and the notification queue) and the store (in particular the cached
balance) unchanged. -/
theorem push_trade_message_irrelevant_report_frame (b : CCXTBroker) (st : Store)
    (msg : Msg) (order : CCXTOrder)
    (h1 : afind msg.o.i b.open_orders = some order)
    (h2 : msg.o.x ≠ "TRADE" ∨ (msg.o.X ≠ "FILLED" ∧ msg.o.X ≠ "PARTIALLY_FILLED")) :
    b.push_trade_message st msg = (b, st) := by
  rcases h2 with h2 | h2
  · simp [CCXTBroker.push_trade_message, h1, h2]
  · by_cases hx : msg.o.x = "TRADE"
    · simp [CCXTBroker.push_trade_message, h1, hx, h2.1, h2.2]
    · simp [CCXTBroker.push_trade_message, h1, hx]

theorem push_trade_message_irrelevant_report_frame_witness :
    afind exMsgAck.o.i exBroker.open_orders = some exOrder1 ∧
    exBroker.push_trade_message exStore exMsgAck = (exBroker, exStore) :=
  ⟨by decide,
   push_trade_message_irrelevant_report_frame exBroker exStore exMsgAck exOrder1
     (by decide) (Or.inl (by decide))⟩

/-- C2 counterexample: applying a FILLED trade execution report to the
known order o1 marks it completed but does NOT remove it from the
open-order table - after `push_trade_message` the table still maps o1 to
the (now completed) order, refuting the claimed eviction of terminal
orders by the fill engine. -/
theorem push_filled_not_evicted_counterexample :
    (afind "o1"
        (exBroker.push_trade_message exStore exMsgFilled).1.open_orders).map
      CCXTOrder.status = some OrderStatus.Completed := by
  decide

/-- C2 amended: applying a trade execution report with status FILLED to a
known order marks the order filled (status Completed), but the order
REMAINS in the open-order table under its id; the fill engine never
evicts it (eviction only happens in the cancellation pipeline). -/
theorem push_filled_marks_completed_and_retains (b : CCXTBroker) (st : Store)
    (msg : Msg) (order : CCXTOrder)
    (h1 : afind msg.o.i b.open_orders = some order)
    (h2 : msg.o.x = "TRADE") (h3 : msg.o.X = "FILLED") :
    (afind msg.o.i (b.push_trade_message st msg).1.open_orders).map
      CCXTOrder.status = some OrderStatus.Completed := by
  simp [CCXTBroker.push_trade_message, h1, h2, h3, CCXTBroker.get_balance,
    CCXTBroker.notify, CCXTBroker.get_order_trades, Store.fetch_my_trades,
    afind_ainsert_self]

theorem push_filled_marks_completed_and_retains_witness :
    (afind exMsgFilled.o.i
        (exBroker.push_trade_message exStore exMsgFilled).1.open_orders).map
      CCXTOrder.status = some OrderStatus.Completed :=
  push_filled_marks_completed_and_retains exBroker exStore exMsgFilled exOrder1
    (by decide) (by decide) (by decide)

/-- Exchange create response for the submission fixtures: the exchange
reports price 5 in the (possibly incomplete) create response, while the
authoritative re-fetched state of the same order reports price 7. -/
def exCreateResp : CcxtOrder :=
  { id := "A", price := 5, amount := 1, side := "buy",
    datetime := "t0", status := "open" }

def exFetchedA : CcxtOrder :=
  { id := "A", price := 7, amount := 1, side := "buy",
    datetime := "t1", status := "open" }

def exStoreSubmit : Store :=
  { _cash := 1000, _value := 1000, exch_cash := 1000, exch_value := 1000,
    orders := [("A", exFetchedA)],
    createResp := exCreateResp, cancelResp := exCreateResp }

/-- C3 counterexample: after `_submit`, the price of the local order is
the price of the create response (5), not the price of the authoritative
re-fetched order (7) - `order.price = ret_ord[price]` overwrites the
field with the create-response value, refuting the claim that the price
field comes from the re-fetched exchange state. -/
theorem submit_price_from_create_response_counterexample :
    ((CCXTBroker._submit exBrokerEmpty exStoreSubmit "strategy" exData none
        "buy" 1 (some 9) []).1.toOption.map CCXTOrder.price = some 5) ∧
    ((afind "A" exStoreSubmit.orders).map CcxtOrder.price = some 7) ∧
    ((CCXTBroker._submit exBrokerEmpty exStoreSubmit "strategy" exData none
        "buy" 1 (some 9) []).1.toOption.map CCXTOrder.price ≠
      (afind "A" exStoreSubmit.orders).map CcxtOrder.price) := by
  refine ⟨by decide, by decide, by decide⟩

/-- C3 amended: the local order wraps the raw order re-fetched by the id
returned from the create call - so its ccxt fields (in particular the
status) come from the authoritative re-fetched exchange state - but the
price attribute of the local Order is then overwritten with the price of
the create response, not the re-fetched price. -/
theorem submit_builds_from_refetch_except_price (b : CCXTBroker) (st : Store)
    (owner : String) (data : DataFeed) (exectype : Option ℕ) (side : String)
    (amount : ℚ) (price : Option ℚ) (params : List (String × ParamVal))
    (fetched : CcxtOrder)
    (h : afind st.createResp.id st.orders = some fetched) :
    ((CCXTBroker._submit b st owner data exectype side amount price
        params).1.toOption.map CCXTOrder.ccxt_order = some fetched) ∧
    ((CCXTBroker._submit b st owner data exectype side amount price
        params).1.toOption.map CCXTOrder.price = some st.createResp.price) := by
  constructor <;>
    simp only [CCXTBroker._submit, Store.create_order, Store.fetch_order, h,
      CCXTBroker.notify, Except.toOption, Option.map]

theorem submit_builds_from_refetch_except_price_witness :
    ((CCXTBroker._submit exBrokerEmpty exStoreSubmit "strategy" exData none
        "buy" 1 (some 9) []).1.toOption.map CCXTOrder.ccxt_order = some exFetchedA) ∧
    ((CCXTBroker._submit exBrokerEmpty exStoreSubmit "strategy" exData none
        "buy" 1 (some 9) []).1.toOption.map CCXTOrder.price =
      some exStoreSubmit.createResp.price) :=
  submit_builds_from_refetch_except_price exBrokerEmpty exStoreSubmit "strategy"
    exData none "buy" 1 (some 9) [] exFetchedA (by decide)

/-- Fixtures for the cancellation pipeline: o1 as reported closed by the
exchange, and o1 as reported open with a cancel response that satisfies,
or fails, the canceled predicate. -/
def exCcxtClosed : CcxtOrder :=
  { id := "o1", price := 100, amount := 2, side := "buy",
    datetime := "t0", status := "closed" }

def exCcxtCanceled : CcxtOrder :=
  { id := "o1", price := 100, amount := 2, side := "buy",
    datetime := "t0", status := "canceled" }

def exStoreClosed : Store :=
  { _cash := 1000, _value := 1000, exch_cash := 1000, exch_value := 1000,
    orders := [("o1", exCcxtClosed)],
    createResp := exCcxtClosed, cancelResp := exCcxtClosed }

def exStoreCancelOk : Store :=
  { _cash := 1000, _value := 1000, exch_cash := 1000, exch_value := 1000,
    orders := [("o1", exCcxt1)],
    createResp := exCcxt1, cancelResp := exCcxtCanceled }

def exStoreCancelDeclined : Store :=
  { _cash := 1000, _value := 1000, exch_cash := 1000, exch_value := 1000,
    orders := [("o1", exCcxt1)],
    createResp := exCcxt1, cancelResp := exCcxt1 }

/-- C4: when the order state fetched at the start of `cancel` satisfies
the configured closed predicate, `cancel` returns the order unchanged,
issues no cancel request (the exchange-call log grows by the single
fetch), leaves the open-order table and the notification queue - the
whole broker state - unchanged. -/
theorem cancel_already_closed_noop (b : CCXTBroker) (st : Store)
    (order : CCXTOrder) (co : CcxtOrder)
    (h1 : afind order.ccxt_order.id st.orders = some co)
    (h2 : co.getItem b.mappings.closed_order.key =
      Except.ok b.mappings.closed_order.value) :
    b.cancel st order = (.ok order, b,
      { st with log := st.log ++
          [ExchCall.fetchOrder order.ccxt_order.id order.data.dataname] }) := by
  simp [CCXTBroker.cancel, Store.fetch_order, h1, h2]

theorem cancel_already_closed_noop_witness :
    exBroker.cancel exStoreClosed exOrder1 = (.ok exOrder1, exBroker,
      { exStoreClosed with log :=
          [ExchCall.fetchOrder "o1" "BTC/USDT"] }) :=
  cancel_already_closed_noop exBroker exStoreClosed exOrder1 exCcxtClosed
    (by decide) (by decide)

/-- C5: when the fetched order state does not satisfy the closed
predicate, `cancel` issues a cancel request and checks the response
against the canceled predicate: if it is satisfied, the order is removed
from the open-order table, marked canceled, and a notification carrying
the canceled order is enqueued; if it is not satisfied, the broker state
(table, order status, notification queue) is left exactly as it was and
the unchanged order is returned. -/
theorem cancel_not_closed_behavior (b : CCXTBroker) (st : Store)
    (order : CCXTOrder) (co : CcxtOrder) (v : FieldVal) (ord0 : CCXTOrder)
    (h1 : afind order.ccxt_order.id st.orders = some co)
    (h2 : co.getItem b.mappings.closed_order.key = Except.ok v)
    (h3 : v ≠ b.mappings.closed_order.value)
    (h4 : afind order.ccxt_order.id b.open_orders = some ord0) :
    (st.cancelResp.getItem b.mappings.canceled_order.key =
        Except.ok b.mappings.canceled_order.value →
      b.cancel st order =
        (.ok { order with status := OrderStatus.Canceled },
         { b with
             open_orders := aerase order.ccxt_order.id b.open_orders,
             notifs := b.notifs ++
               [some { order with status := OrderStatus.Canceled }] },
         { st with log := st.log ++
             [ExchCall.fetchOrder order.ccxt_order.id order.data.dataname,
              ExchCall.cancelOrder order.ccxt_order.id order.data.dataname] })) ∧
    (∀ w, st.cancelResp.getItem b.mappings.canceled_order.key = Except.ok w →
      w ≠ b.mappings.canceled_order.value →
      b.cancel st order = (.ok order, b,
        { st with log := st.log ++
            [ExchCall.fetchOrder order.ccxt_order.id order.data.dataname,
             ExchCall.cancelOrder order.ccxt_order.id order.data.dataname] })) := by
  constructor
  · intro hc
    simp [CCXTBroker.cancel, Store.fetch_order, Store.cancel_order, h1, h2, h3,
      h4, hc, CCXTBroker.notify]
  · intro w hw hwne
    simp [CCXTBroker.cancel, Store.fetch_order, Store.cancel_order, h1, h2, h3,
      h4, hw, hwne]

theorem cancel_not_closed_behavior_witness :
    exBroker.cancel exStoreCancelOk exOrder1 =
      (.ok { exOrder1 with status := OrderStatus.Canceled },
       { exBroker with
           open_orders := [],
           notifs := [some { exOrder1 with status := OrderStatus.Canceled }] },
       { exStoreCancelOk with log :=
           [ExchCall.fetchOrder "o1" "BTC/USDT",
            ExchCall.cancelOrder "o1" "BTC/USDT"] }) :=
  (cancel_not_closed_behavior exBroker exStoreCancelOk exOrder1 exCcxt1
      (FieldVal.str "open") exOrder1 (by decide) (by decide) (by decide)
      (by decide)).1 (by decide)

/-- C6: in the closed/opened value and commission attribution applied to
every fill, a zero opened quantity yields zero opened value and zero
opened commission, a zero closed quantity yields zero closed value and
zero closed commission, and a message without the commission field
contributes zero commission on both sides. -/
theorem fillValues_zero_attribution_and_default (closed opened l_price : ℚ)
    (n : Option ℚ) :
    (opened = 0 →
      (fillValues closed opened l_price n).openedvalue = 0 ∧
      (fillValues closed opened l_price n).openedcomm = 0) ∧
    (closed = 0 →
      (fillValues closed opened l_price n).closedvalue = 0 ∧
      (fillValues closed opened l_price n).closedcomm = 0) ∧
    (n = none →
      (fillValues closed opened l_price n).closedcomm = 0 ∧
      (fillValues closed opened l_price n).openedcomm = 0) := by
  refine ⟨fun h => ?_, fun h => ?_, fun h => ?_⟩ <;>
    simp [fillValues, h]

theorem fillValues_zero_attribution_and_default_witness :
    ((fillValues 2 0 101 (some 1)).openedvalue = 0 ∧
      (fillValues 2 0 101 (some 1)).openedcomm = 0) ∧
    ((fillValues 2 3 101 none).closedcomm = 0 ∧
      (fillValues 2 3 101 none).openedcomm = 0) :=
  ⟨(fillValues_zero_attribution_and_default 2 0 101 (some 1)).1 rfl,
   (fillValues_zero_attribution_and_default 2 3 101 none).2.2 rfl⟩

/-- C8: `getcash` and `getvalue` serve the cached store balance and leave
the store - in particular its exchange-call log - untouched, while a
balance query is issued exactly once at construction, exactly once at
shutdown, and exactly once by every applied fill in
`push_trade_message`. -/
theorem balance_cached_reads_and_refresh_points :
    (∀ (b : CCXTBroker) (st : Store),
      b.getcash st = (st._cash, { b with cash := st._cash }, st)) ∧
    (∀ (b : CCXTBroker) (st : Store),
      b.getvalue st = (st._value, { b with value := st._value }, st)) ∧
    (∀ (ot : List (ℕ × String)) (m : Mappings) (ci : List (String × CommInfo))
        (st : Store),
      countBalance (CCXTBroker.init ot m ci st).2.log =
        countBalance st.log + 1) ∧
    (∀ (b : CCXTBroker) (st : Store),
      countBalance (b.stop st).2.log = countBalance st.log + 1) ∧
    (∀ (b : CCXTBroker) (st : Store) (msg : Msg) (order : CCXTOrder),
      afind msg.o.i b.open_orders = some order → msg.o.x = "TRADE" →
      (msg.o.X = "FILLED" ∨ msg.o.X = "PARTIALLY_FILLED") →
      countBalance (b.push_trade_message st msg).2.log =
        countBalance st.log + 1) := by
  refine ⟨fun b st => rfl, fun b st => rfl, fun ot m ci st => ?_,
    fun b st => ?_, fun b st msg order h1 h2 h3 => ?_⟩
  · simp [CCXTBroker.init, Store.get_balance, countBalance_append, countBalance]
  · simp [CCXTBroker.stop, CCXTBroker.get_balance, Store.get_balance,
      countBalance_append, countBalance]
  · rcases h3 with h3 | h3 <;>
      simp [CCXTBroker.push_trade_message, h1, h2, h3, CCXTBroker.get_balance,
        Store.get_balance, CCXTBroker.get_order_trades, Store.fetch_my_trades,
        CCXTBroker.notify, countBalance_append, countBalance]

theorem balance_cached_reads_and_refresh_points_witness :
    countBalance (exBroker.push_trade_message exStore exMsgFilled).2.log =
      countBalance exStore.log + 1 :=
  balance_cached_reads_and_refresh_points.2.2.2.2 exBroker exStore exMsgFilled
    exOrder1 (by decide) (by decide) (Or.inl (by decide))

/-! ### Object-identity model of the notification path (for C9)

The main embedding uses value semantics, which cannot distinguish a
cloned notification from a by-reference one.  The model below makes the
Python object structure of `notify` explicit.  The backtrader `clone`
called at source line 198 is a SHALLOW copy of the order (only the
`executed` record is re-cloned): attribute-level state is copied by
value, while the `ccxt_order` attribute keeps pointing at the very dict
object the live order holds.  This broker mutates that shared dict in
place after notifications have been enqueued
(`order.ccxt_order[trades] = ...`, source line 473 - reachable for an
already-notified order since the fill path never evicts it), so the
heap of ccxt dicts is modelled explicitly and clones carry a reference
into it. -/

/-- Attribute-level state of a live order: the fields the broker mutates
by rebinding an attribute (status marks, price assignment, recorded
executions).  A shallow copy snapshots all of these. -/
structure OrderAttrs where
  status : OrderStatus
  price : ℚ
  size : ℚ
  executions : List ExecRecord := []
deriving DecidableEq, Repr

/-- A live order object: attribute state plus a pointer to its
`ccxt_order` dict in the dict heap. -/
structure LiveOrder where
  attrs : OrderAttrs
  ccxt_ref : ℕ
deriving DecidableEq, Repr

/-- The object `order.clone()` produces (backtrader `OrderBase.clone`,
modelled at its interface boundary: `copy(self)` with `executed`
re-cloned): the attribute state is copied, the `ccxt_order` pointer is
shared with the live order. -/
structure OrderClone where
  attrs : OrderAttrs
  ccxt_ref : ℕ
deriving DecidableEq, Repr

/-- The state of the notification path: the heap of ccxt dict objects,
one live order, and the queue of enqueued clones. -/
structure NotifState where
  dictHeap : List (ℕ × CcxtOrder)
  live : LiveOrder
  notifs : List OrderClone := []
deriving DecidableEq, Repr

/-- `order.clone()`: shallow copy - attrs by value, dict by reference. -/
def cloneOrder (o : LiveOrder) : OrderClone :=
  { attrs := o.attrs, ccxt_ref := o.ccxt_ref }

/-- `self.notifs.put(order.clone())` (source lines 197-198). -/
def notifyClone (s : NotifState) : NotifState :=
  { s with notifs := s.notifs ++ [cloneOrder s.live] }

/-- An attribute rebinding on the live order, e.g. `order.completed()`,
`order.cancel()`, `order.price = ...`, or recording an execution. -/
def setOrderAttrs (s : NotifState) (f : OrderAttrs → OrderAttrs) : NotifState :=
  { s with live := { s.live with attrs := f s.live.attrs } }

/-- The in-place mutation of the shared ccxt dict performed by the fill
engine after enqueuing earlier notifications:
`order.ccxt_order[trades] = ccxt_order_trades` (source line 473). -/
def setSharedTrades (s : NotifState) (tr : List Trade) : NotifState :=
  { s with dictHeap :=
      match afind s.live.ccxt_ref s.dictHeap with
      | none => s.dictHeap
      | some d => ainsert s.live.ccxt_ref { d with trades := tr } s.dictHeap }

/-- What the caller sees when it inspects a pulled notification: the
cloned attribute state, and the ccxt dict reached through the shared
pointer in its CURRENT heap state. -/
def observeNotif (s : NotifState) (c : OrderClone) : OrderAttrs × Option CcxtOrder :=
  (c.attrs, afind c.ccxt_ref s.dictHeap)

def c9attrs : OrderAttrs :=
  { status := OrderStatus.Created, price := 100, size := 2 }

def c9s0 : NotifState :=
  { dictHeap := [(0, exCcxt1)], live := { attrs := c9attrs, ccxt_ref := 0 } }

/-- C9 counterexample: enqueue a notification for the live order, then
perform the line-473 in-place mutation of the shared ccxt dict.  The
order the caller later observes through the already-enqueued
notification has changed (its ccxt dict now carries the new trade
list), refuting the claim that no mutation applied to the live order
after enqueue can change the received order: the clone is shallow and
shares the ccxt_order dict with the live object. -/
theorem notify_shared_ccxt_dict_counterexample :
    ((notifyClone c9s0).notifs.head?.map
        (observeNotif (setSharedTrades (notifyClone c9s0) [{ order := "o1" }]))) =
      some (c9attrs, some { exCcxt1 with trades := [{ order := "o1" }] }) ∧
    ((notifyClone c9s0).notifs.head?.map (observeNotif (notifyClone c9s0))) =
      some (c9attrs, some exCcxt1) ∧
    ((notifyClone c9s0).notifs.head?.map
        (observeNotif (setSharedTrades (notifyClone c9s0) [{ order := "o1" }]))) ≠
      ((notifyClone c9s0).notifs.head?.map (observeNotif (notifyClone c9s0))) := by
  refine ⟨by decide, by decide, by decide⟩

/-- C9 amended: the enqueued notification is a SHALLOW clone.  Its
attribute-level state (status, price, size, recorded executions) is
snapshotted at enqueue time, so attribute rebindings applied to the live
order afterwards do not change the attributes the caller receives; but
the clone shares the ccxt_order dict with the live order, so the ccxt
dict observed through the notification is always the current shared
dict - in-place dict mutations after enqueue (source line 473) are
visible through it. -/
theorem notify_shallow_clone_amended (s : NotifState)
    (f : OrderAttrs → OrderAttrs) (tr : List Trade) (h : s.notifs = []) :
    ((setSharedTrades (setOrderAttrs (notifyClone s) f) tr).notifs.head?.map
        OrderClone.attrs = some s.live.attrs) ∧
    ((setSharedTrades (setOrderAttrs (notifyClone s) f) tr).live.attrs =
      f s.live.attrs) ∧
    ((setSharedTrades (setOrderAttrs (notifyClone s) f) tr).notifs.head?.map
        (fun c => afind c.ccxt_ref
          (setSharedTrades (setOrderAttrs (notifyClone s) f) tr).dictHeap) =
      some (afind (setSharedTrades (setOrderAttrs (notifyClone s) f) tr).live.ccxt_ref
        (setSharedTrades (setOrderAttrs (notifyClone s) f) tr).dictHeap)) := by
  cases hd : afind s.live.ccxt_ref s.dictHeap <;>
    simp [notifyClone, cloneOrder, setOrderAttrs, setSharedTrades, h, hd]

theorem notify_shallow_clone_amended_witness :
    ((setSharedTrades (setOrderAttrs (notifyClone c9s0)
        (fun a => { a with status := OrderStatus.Completed }))
        [{ order := "o1" }]).notifs.head?.map
        OrderClone.attrs = some c9s0.live.attrs) ∧
    ((setSharedTrades (setOrderAttrs (notifyClone c9s0)
        (fun a => { a with status := OrderStatus.Completed }))
        [{ order := "o1" }]).live.attrs =
      { c9s0.live.attrs with status := OrderStatus.Completed }) ∧
    ((setSharedTrades (setOrderAttrs (notifyClone c9s0)
        (fun a => { a with status := OrderStatus.Completed }))
        [{ order := "o1" }]).notifs.head?.map
        (fun c => afind c.ccxt_ref
          (setSharedTrades (setOrderAttrs (notifyClone c9s0)
            (fun a => { a with status := OrderStatus.Completed }))
            [{ order := "o1" }]).dictHeap) =
      some (afind (setSharedTrades (setOrderAttrs (notifyClone c9s0)
          (fun a => { a with status := OrderStatus.Completed }))
          [{ order := "o1" }]).live.ccxt_ref
        (setSharedTrades (setOrderAttrs (notifyClone c9s0)
          (fun a => { a with status := OrderStatus.Completed }))
          [{ order := "o1" }]).dictHeap)) :=
  notify_shallow_clone_amended c9s0
    (fun a => { a with status := OrderStatus.Completed }) [{ order := "o1" }] rfl

/-- Recognizer for a raised `KeyError`. -/
def isKeyError {α : Type} : Except BrokerErr α → Bool
  | Except.error (BrokerErr.keyError _) => true
  | _ => false

/-- C10: a call to `buy` or `sell` whose keyword arguments lack the
`parent` key or the `transmit` key raises `KeyError` (both keys are
unconditionally deleted first) and leaves the broker state and the store
- hence any exchange interaction - untouched. -/
theorem buy_sell_missing_parent_transmit_keyerror (b : CCXTBroker) (st : Store)
    (owner : String) (data : DataFeed) (size : ℚ) (price : Option ℚ)
    (exectype : Option ℕ) (kwargs : List (String × ParamVal))
    (h : afind "parent" kwargs = none ∨ afind "transmit" kwargs = none) :
    (isKeyError (CCXTBroker.buy b st owner data size price exectype kwargs).1 = true ∧
      (CCXTBroker.buy b st owner data size price exectype kwargs).2.1 = b ∧
      (CCXTBroker.buy b st owner data size price exectype kwargs).2.2 = st) ∧
    (isKeyError (CCXTBroker.sell b st owner data size price exectype kwargs).1 = true ∧
      (CCXTBroker.sell b st owner data size price exectype kwargs).2.1 = b ∧
      (CCXTBroker.sell b st owner data size price exectype kwargs).2.2 = st) := by
  rcases h with h | h
  · constructor <;>
      simp [CCXTBroker.buy, CCXTBroker.sell, delKey, h, isKeyError]
  · cases hp : afind "parent" kwargs with
    | none =>
      constructor <;>
        simp [CCXTBroker.buy, CCXTBroker.sell, delKey, hp, isKeyError]
    | some pv =>
      constructor <;>
        simp [CCXTBroker.buy, CCXTBroker.sell, delKey, hp, afind_aerase, h,
          isKeyError]

theorem buy_sell_missing_parent_transmit_keyerror_witness :
    (isKeyError (CCXTBroker.buy exBrokerEmpty exStore "strategy" exData 1
        (some 100) none []).1 = true ∧
      (CCXTBroker.buy exBrokerEmpty exStore "strategy" exData 1
        (some 100) none []).2.1 = exBrokerEmpty ∧
      (CCXTBroker.buy exBrokerEmpty exStore "strategy" exData 1
        (some 100) none []).2.2 = exStore) ∧
    (isKeyError (CCXTBroker.sell exBrokerEmpty exStore "strategy" exData 1
        (some 100) none []).1 = true ∧
      (CCXTBroker.sell exBrokerEmpty exStore "strategy" exData 1
        (some 100) none []).2.1 = exBrokerEmpty ∧
      (CCXTBroker.sell exBrokerEmpty exStore "strategy" exData 1
        (some 100) none []).2.2 = exStore) :=
  buy_sell_missing_parent_transmit_keyerror exBrokerEmpty exStore "strategy"
    exData 1 (some 100) none [] (Or.inl rfl)

end CcxtBt
